import Mathlib

/-!
Verification of the decision-boundary visualization code of the notebook
`Part 2. Supervised learning.ipynb`.

The notebook code under scrutiny is:

  def plot_svc_decision_function(clf, ax=None):
      if ax is None:
          ax = plt.gca()
      x = np.linspace(plt.xlim()[0], plt.xlim()[1], 30)
      y = np.linspace(plt.ylim()[0], plt.ylim()[1], 30)
      Y, X = np.meshgrid(y, x)
      P = np.zeros_like(X)
      for i, xi in enumerate(x):
          for j, yj in enumerate(y):
              point = np.asarray([xi, yj]).reshape(1, -1)
              P[i, j] = clf.decision_function(point)
      ax.contour(X, Y, P, colors='k', levels=[-1, 0, 1], alpha=0.5,
                 linestyles=['--', '-', '--'])

  def plot_svm(N=10):
      X, y = make_blobs(n_samples=200, centers=2, random_state=0,
                        cluster_std=0.60)
      X = X[:N]
      y = y[:N]
      clf = SVC(kernel='linear')
      clf.fit(X, y)
      plt.figure()
      plt.scatter(X[:, 0], X[:, 1], c=y, s=50, cmap='spring')
      plt.xlim(-1, 4)
      plt.ylim(-1, 6)
      plot_svc_decision_function(clf, plt.gca())
      plt.scatter(clf.support_vectors_[:, 0], clf.support_vectors_[:, 1],
                  s=200, c="none", linewidths=1, edgecolors='k')

The embedding uses exact rational arithmetic (ℚ) for coordinates and
scores.  The pyplot global state is modelled explicitly: a list of axes
(drawing surfaces) together with the index of the currently active one;
`plt.gca`, `plt.figure`, `plt.scatter`, `plt.xlim`, `plt.ylim` and
`ax.contour` are modelled as state transformers.  Autoscaling of view
limits by `scatter` is not modelled: all claims under verification read
limits that were set explicitly (or are axes defaults) before being read.
The classifier is modelled as an object with explicit internal state `σ`
and a batch method `decisionFunction`, so that the absence of mutation is
a provable statement rather than a modelling artifact; `sklearn`'s library
calls (`make_blobs`, `SVC(kernel='linear').fit`) are opaque parameters of
the development, since their internals are outside the repository.
-/

/-- Embedding of `np.linspace a b n` (endpoint inclusive): for `n ≥ 2` the
samples are `a + (b - a) * i / (n - 1)` for `i = 0, …, n-1`; `n = 1` gives
`[a]` and `n = 0` gives `[]`. -/
def linspace (a b : ℚ) (n : ℕ) : List ℚ :=
  if n ≤ 1 then (List.range n).map (fun _ => a)
  else (List.range n).map (fun i : ℕ => a + (b - a) * (i : ℚ) / ((n : ℚ) - 1))

/-- Embedding of `np.meshgrid u v` (default indexing): both outputs have
`v.length` rows of `u.length` entries; the first output repeats `u` in
every row, the second is constant `v i` along row `i`. -/
def meshgrid (u v : List ℚ) : List (List ℚ) × List (List ℚ) :=
  (v.map (fun _ => u), v.map (fun vi => u.map (fun _ => vi)))

/-- Color specification of a scatter call: either per-point integer labels
with a colormap (`c=y, cmap=...`), or unfilled markers (`c="none"`, used
for the support-vector overlay; its edge styling is not modelled). -/
inductive ScatterColor where
  | byLabel (c : List ℕ) (cmap : String)
  | unfilled
deriving DecidableEq

/-- A drawing primitive recorded on an axes object: a scatter of 2D points
or a contour call with its grids, color, levels, alpha and linestyles. -/
inductive Artist where
  | scatter (pts : List (ℚ × ℚ)) (color : ScatterColor) (size : ℚ)
  | contour (X : List (List ℚ)) (Y : List (List ℚ)) (P : List (List ℚ))
      (colors : String) (levels : List ℚ) (alpha : ℚ)
      (linestyles : List String)
deriving DecidableEq

/-- The default artist (an empty scatter), used only as the default value
of list lookups. -/
instance : Inhabited Artist := ⟨Artist.scatter [] ScatterColor.unfilled 0⟩

/-- A drawing surface (matplotlib `Axes`): view limits and the list of
artists drawn on it, in drawing order. -/
structure Axes where
  xlim : ℚ × ℚ
  ylim : ℚ × ℚ
  artists : List Artist
deriving DecidableEq

/-- A fresh axes: matplotlib's default view limits are `(0, 1)` on both
axes, and nothing is drawn yet. -/
def defaultAxes : Axes := ⟨(0, 1), (0, 1), []⟩

/-- The pyplot global state: all axes created so far and the index of the
currently active one. -/
structure PltState where
  figs : List Axes
  cur : ℕ
deriving DecidableEq

/-- Replace the element at index `i` (no-op when out of range). -/
def listModify {α : Type} (f : α → α) : ℕ → List α → List α
  | _, [] => []
  | 0, a :: as => f a :: as
  | n + 1, a :: as => a :: listModify f n as

/-- Embedding of `plt.gca()`: return the current axes (by index), creating
a fresh default axes first when none exists yet. -/
def PltState.gca (st : PltState) : PltState × ℕ :=
  if st.figs.isEmpty then (⟨[defaultAxes], 0⟩, 0) else (st, st.cur)

/-- Embedding of `plt.figure()`: append a fresh axes and make it current. -/
def PltState.figure (st : PltState) : PltState :=
  ⟨st.figs ++ [defaultAxes], st.figs.length⟩

/-- Embedding of argument-less `plt.xlim()`: read the current axes' x view
limits (via `gca`, which may create the axes). -/
def PltState.readXlim (st : PltState) : PltState × (ℚ × ℚ) :=
  let g := st.gca
  (g.1, (g.1.figs.getD g.2 defaultAxes).xlim)

/-- Embedding of argument-less `plt.ylim()`: read the current axes' y view
limits. -/
def PltState.readYlim (st : PltState) : PltState × (ℚ × ℚ) :=
  let g := st.gca
  (g.1, (g.1.figs.getD g.2 defaultAxes).ylim)

/-- Embedding of `plt.xlim(a, b)`: set the current axes' x view limits. -/
def PltState.setXlim (st : PltState) (a b : ℚ) : PltState :=
  let g := st.gca
  ⟨listModify (fun ax => { ax with xlim := (a, b) }) g.2 g.1.figs, g.1.cur⟩

/-- Embedding of `plt.ylim(a, b)`: set the current axes' y view limits. -/
def PltState.setYlim (st : PltState) (a b : ℚ) : PltState :=
  let g := st.gca
  ⟨listModify (fun ax => { ax with ylim := (a, b) }) g.2 g.1.figs, g.1.cur⟩

/-- Embedding of `plt.scatter`: append a scatter artist to the current
axes (via `gca`). -/
def PltState.scatter (st : PltState) (pts : List (ℚ × ℚ))
    (color : ScatterColor) (size : ℚ) : PltState :=
  let g := st.gca
  ⟨listModify
      (fun ax => { ax with artists := ax.artists ++ [Artist.scatter pts color size] })
      g.2 g.1.figs,
    g.1.cur⟩

/-- Embedding of `ax.contour`-style drawing onto an explicit axes: append
an artist to the axes at index `i`. -/
def PltState.addArtistAt (st : PltState) (i : ℕ) (a : Artist) : PltState :=
  { st with
    figs := listModify (fun ax => { ax with artists := ax.artists ++ [a] }) i st.figs }

/-- A fitted classifier object with explicit internal state `σ`.
`decisionFunction` is the embedding of `clf.decision_function`: it takes
the object state and a batch of 2D points and returns the batch of scores
together with the (possibly updated) object state, so that mutation — or
its absence — is observable.  `support_vectors` is the embedding of the
`clf.support_vectors_` attribute read. -/
structure SClassifier (σ : Type) where
  state : σ
  decisionFunction : σ → List (ℚ × ℚ) → List ℚ × σ
  support_vectors : σ → List (ℚ × ℚ)

/-- Embedding of the inner `for j, yj in enumerate(y)` loop of
`plot_svc_decision_function` at row value `xi`: one
`clf.decision_function` call per `yj`, each on the single-row batch
`[(xi, yj)]` (the `reshape(1, -1)` of the source), threading the
classifier state through the calls.  Returns the row of scores (the
assignment `P[i, j] = ...` reads the lone entry of the returned batch),
the trace of batches passed to `decision_function`, and the classifier
after the row. -/
def rowEval {σ : Type} (clf : SClassifier σ) (xi : ℚ) :
    List ℚ → List ℚ × List (List (ℚ × ℚ)) × SClassifier σ
  | [] => ([], [], clf)
  | yj :: ys =>
    let point := [(xi, yj)]
    let r := clf.decisionFunction clf.state point
    let clf1 : SClassifier σ := { clf with state := r.2 }
    let rest := rowEval clf1 xi ys
    (r.1.headI :: rest.1, point :: rest.2.1, rest.2.2)

/-- Embedding of the nested evaluation loop of
`plot_svc_decision_function`: builds the score matrix `P` row by row (the
loop writes every entry of the `zeros_like` matrix exactly once, so the
matrix is fully described by the written scores), together with the full
trace of `decision_function` batches and the final classifier. -/
def gridEval {σ : Type} (clf : SClassifier σ) (x y : List ℚ) :
    List (List ℚ) × List (List (ℚ × ℚ)) × SClassifier σ :=
  match x with
  | [] => ([], [], clf)
  | xi :: xs =>
    let row := rowEval clf xi y
    let rest := gridEval row.2.2 xs y
    (row.1 :: rest.1, row.2.1 ++ rest.2.1, rest.2.2)

/-- Embedding of `plot_svc_decision_function(clf, ax)`.  `ax = none`
models the Python default `ax=None`, resolved to `plt.gca()`; `some i`
models passing the axes at index `i`.  Note the source reads the grid
extents from `plt.xlim()` / `plt.ylim()` — the currently active axes —
while drawing the contour onto `ax`. -/
def plot_svc_decision_function {σ : Type} (clf : SClassifier σ)
    (ax : Option ℕ) (st : PltState) : PltState × SClassifier σ :=
  let g := match ax with
    | none => st.gca
    | some i => (st, i)
  let axI := g.2
  let rx := g.1.readXlim
  let ry := rx.1.readYlim
  let x := linspace rx.2.1 rx.2.2 30
  let y := linspace ry.2.1 ry.2.2 30
  let m := meshgrid y x
  let ev := gridEval clf x y
  (ry.1.addArtistAt axI
      (Artist.contour m.2 m.1 ev.1 "k" [-1, 0, 1] (1/2) ["--", "-", "--"]),
    ev.2.2)

/-- The external scikit-learn capabilities consumed by `plot_svm`, opaque
to this repository: `make_blobs n_samples centers random_state
cluster_std` returns points and labels, and `svcLinearFit` is
`SVC(kernel='linear').fit` returning a fitted classifier with object
state `σ`.  Both are deterministic functions of their arguments
(`make_blobs` is seeded by `random_state`). -/
structure SKLearn (σ : Type) where
  make_blobs : ℕ → ℕ → ℕ → ℚ → List (ℚ × ℚ) × List ℕ
  svcLinearFit : List (ℚ × ℚ) → List ℕ → SClassifier σ

/-- The default value of `plot_svm`'s parameter `N` (`def plot_svm(N=10)`). -/
def plot_svm_N_default : ℕ := 10

/-- The `make_blobs` call of `plot_svm`, with the literal arguments of the
source: `n_samples=200, centers=2, random_state=0, cluster_std=0.60`.
Its arguments are constants, so every call of `plot_svm` draws from the
same dataset. -/
def plot_svm_dataset {σ : Type} (lib : SKLearn σ) : List (ℚ × ℚ) × List ℕ :=
  lib.make_blobs 200 2 0 (3/5)

/-- Embedding of `plot_svm(N)`: generate the fixed dataset, keep the first
`N` points and labels, fit a linear SVC on that prefix, open a fresh
figure, scatter the prefix colored by label, set the hard-coded window,
render the decision function onto `plt.gca()`, and overlay the support
vectors. -/
def plot_svm {σ : Type} (lib : SKLearn σ) (N : ℕ) (st : PltState) : PltState :=
  let Xy := plot_svm_dataset lib
  let X := Xy.1.take N
  let y := Xy.2.take N
  let clf := lib.svcLinearFit X y
  let st1 := st.figure
  let st2 := st1.scatter X (ScatterColor.byLabel y "spring") 50
  let st3 := st2.setXlim (-1) 4
  let st4 := st3.setYlim (-1) 6
  let g := st4.gca
  let r := plot_svc_decision_function clf (some g.2) g.1
  r.1.scatter ((r.2.support_vectors) (r.2.state)) ScatterColor.unfilled 200

/-- Embedding of the notebook cell's top-level calls `plot_svm()` (using
the parameter default) and `plot_svm(200)`. -/
def cell17 {σ : Type} (lib : SKLearn σ) (st : PltState) : PltState :=
  plot_svm lib 200 (plot_svm lib plot_svm_N_default st)

/-- A classifier whose `decision_function` is a pure read computing the
score `f` pointwise on the batch, with support vectors `sv` — the
behaviour of a fitted sklearn `SVC`, whose `decision_function` mutates
nothing. -/
def pureClf (f : ℚ → ℚ → ℚ) (sv : List (ℚ × ℚ)) : SClassifier Unit :=
  ⟨(), fun s pts => (pts.map (fun p => f p.1 p.2), s), fun _ => sv⟩

/-- The axes `plt.gca()` would return in state `st` (the current axes,
or a fresh default axes when none exists). -/
def currentAxes (st : PltState) : Axes :=
  st.gca.1.figs.getD st.gca.2 defaultAxes

/-- The horizontal sample vector a `plot_svc_decision_function` call in
state `st` evaluates: `np.linspace(plt.xlim()[0], plt.xlim()[1], 30)`. -/
def rendererXSamples (st : PltState) : List ℚ :=
  linspace (currentAxes st).xlim.1 (currentAxes st).xlim.2 30

/-- The vertical sample vector a `plot_svc_decision_function` call in
state `st` evaluates: `np.linspace(plt.ylim()[0], plt.ylim()[1], 30)`. -/
def rendererYSamples (st : PltState) : List ℚ :=
  linspace (currentAxes st).ylim.1 (currentAxes st).ylim.2 30

/-- The score matrix `P` computed by a `plot_svc_decision_function` call
on classifier `clf` in state `st`. -/
def rendererP {σ : Type} (clf : SClassifier σ) (st : PltState) : List (List ℚ) :=
  (gridEval clf (rendererXSamples st) (rendererYSamples st)).1

/-- The trace of `decision_function` batches issued by a
`plot_svc_decision_function` call on classifier `clf` in state `st`. -/
def rendererCalls {σ : Type} (clf : SClassifier σ) (st : PltState) :
    List (List (ℚ × ℚ)) :=
  (gridEval clf (rendererXSamples st) (rendererYSamples st)).2.1

/-- The contour artist a `plot_svc_decision_function` call appends to the
target axes. -/
def rendererContour {σ : Type} (clf : SClassifier σ) (st : PltState) : Artist :=
  Artist.contour (meshgrid (rendererYSamples st) (rendererXSamples st)).2
    (meshgrid (rendererYSamples st) (rendererXSamples st)).1
    (rendererP clf st) "k" [-1, 0, 1] (1/2) ["--", "-", "--"]

/-- The target axes index a call with argument `ax` in state `st` draws
onto: the current axes when `ax` is omitted. -/
def resolveTarget (ax : Option ℕ) (st : PltState) : ℕ :=
  match ax with
  | none => st.gca.2
  | some i => i

/-- The classifier `plot_svm N` fits: `SVC(kernel='linear').fit` on the
first `N` points and labels of the fixed dataset. -/
def svmClf {σ : Type} (lib : SKLearn σ) (N : ℕ) : SClassifier σ :=
  lib.svcLinearFit ((plot_svm_dataset lib).1.take N) ((plot_svm_dataset lib).2.take N)

/-- The horizontal samples the renderer evaluates when called from
`plot_svm`: 30 points spanning the hard-coded window `x ∈ [-1, 4]`. -/
def svmXs : List ℚ := linspace (-1) 4 30

/-- The vertical samples the renderer evaluates when called from
`plot_svm`: 30 points spanning the hard-coded window `y ∈ [-1, 6]`. -/
def svmYs : List ℚ := linspace (-1) 6 30

/-- The classifier object as it stands after the renderer's evaluation
loop inside `plot_svm` (the object whose `support_vectors_` the final
scatter reads). -/
def svmClfAfter {σ : Type} (lib : SKLearn σ) (N : ℕ) : SClassifier σ :=
  (gridEval (svmClf lib N) svmXs svmYs).2.2

/-- The contour artist the renderer draws when called from `plot_svm`. -/
def svmContour {σ : Type} (lib : SKLearn σ) (N : ℕ) : Artist :=
  Artist.contour (meshgrid svmYs svmXs).2 (meshgrid svmYs svmXs).1
    (gridEval (svmClf lib N) svmXs svmYs).1 "k" [-1, 0, 1] (1/2) ["--", "-", "--"]

/-- The data scatter `plot_svm N` draws: the first `N` points, colored by
the first `N` labels. -/
def svmDataScatter {σ : Type} (lib : SKLearn σ) (N : ℕ) : Artist :=
  Artist.scatter ((plot_svm_dataset lib).1.take N)
    (ScatterColor.byLabel ((plot_svm_dataset lib).2.take N) "spring") 50

/-- The complete axes `plot_svm N` produces: the hard-coded window and, in
drawing order, the data scatter, the decision-function contour and the
support-vector overlay. -/
def svmNewAxes {σ : Type} (lib : SKLearn σ) (N : ℕ) : Axes :=
  ⟨(-1, 4), (-1, 6),
    [svmDataScatter lib N, svmContour lib N,
      Artist.scatter ((svmClfAfter lib N).support_vectors (svmClfAfter lib N).state)
        ScatterColor.unfilled 200]⟩

/-! ### Concrete fixtures for witnesses and counterexamples -/

/-- The identically-zero decision score, used to instantiate witnesses. -/
def fZero : ℚ → ℚ → ℚ := fun _ _ => 0

/-- A concrete pure classifier with zero scores and no support vectors. -/
def clf0 : SClassifier Unit := pureClf fZero []

/-- A pyplot state with one default axes, current. -/
def plt0 : PltState := ⟨[defaultAxes], 0⟩

/-- An axes with the default extents, used as the active surface of the
two-axes counterexample state. -/
def axA : Axes := ⟨(0, 1), (0, 1), []⟩

/-- An axes with extents x ∈ [5, 6], y ∈ [7, 8], used as a target surface
distinct from the active one. -/
def axB : Axes := ⟨(5, 6), (7, 8), []⟩

/-- A pyplot state holding two axes with the first one active — the
situation of passing an `ax` other than `plt.gca()` to the renderer. -/
def twoAxState : PltState := ⟨[axA, axB], 0⟩

/-- A concrete linear decision score 1·x + 1·y + 0, in the literal form
matching the linear-decision hypothesis. -/
def fLin : ℚ → ℚ → ℚ := fun u v => 1 * u + 1 * v + 0

/-- A concrete pure classifier with the linear decision score `fLin`. -/
def clfLin : SClassifier Unit := pureClf fLin []


/-! ### List helper lemmas -/

lemma isEmpty_append_singleton {α : Type} (l : List α) (a : α) :
    (l ++ [a]).isEmpty = false := by
  cases l <;> rfl

lemma listModify_append_length {α : Type} (f : α → α) (l : List α) (a : α) :
    listModify f l.length (l ++ [a]) = l ++ [f a] := by
  induction l with
  | nil => rfl
  | cons b bs ih => simp [listModify, ih]

lemma getD_append_length {α : Type} (l : List α) (a d : α) :
    (l ++ [a]).getD l.length d = a := by
  induction l with
  | nil => rfl
  | cons b bs ih => exact ih

lemma listModify_length {α : Type} (f : α → α) :
    ∀ (i : ℕ) (l : List α), (listModify f i l).length = l.length := by
  intro i l
  induction l generalizing i with
  | nil => cases i <;> rfl
  | cons b bs ih => cases i <;> simp [listModify, ih]

lemma listModify_getD_self {α : Type} (f : α → α) (d : α) :
    ∀ (i : ℕ) (l : List α), i < l.length →
      (listModify f i l).getD i d = f (l.getD i d) := by
  intro i l
  induction l generalizing i with
  | nil => intro h; simp at h
  | cons b bs ih =>
    intro h
    cases i with
    | zero => rfl
    | succ k =>
      simp only [listModify, List.getD]
      exact ih k (by simpa using h)

lemma listModify_getD_ne {α : Type} (f : α → α) (d : α) :
    ∀ (i j : ℕ) (l : List α), i ≠ j →
      (listModify f i l).getD j d = l.getD j d := by
  intro i j l
  induction l generalizing i j with
  | nil => intro _; cases i <;> rfl
  | cons b bs ih =>
    intro hij
    cases i with
    | zero =>
      cases j with
      | zero => exact absurd rfl hij
      | succ m => rfl
    | succ k =>
      cases j with
      | zero => rfl
      | succ m =>
        simp only [listModify, List.getD]
        exact ih k m (by simpa using hij)

lemma getD_map_lt {α β : Type} (g : α → β) (d : α) (e : β) :
    ∀ (l : List α) (i : ℕ), i < l.length →
      (l.map g).getD i e = g (l.getD i d) := by
  intro l
  induction l with
  | nil => intro i h; simp at h
  | cons b bs ih =>
    intro i h
    cases i with
    | zero => rfl
    | succ k =>
      simp only [List.map, List.getD]
      exact ih k (by simpa using h)

lemma getD_mem_lt {α : Type} (d : α) :
    ∀ (l : List α) (i : ℕ), i < l.length → l.getD i d ∈ l := by
  intro l
  induction l with
  | nil => intro i h; simp at h
  | cons b bs ih =>
    intro i h
    cases i with
    | zero => exact List.mem_cons_self b bs
    | succ k => exact List.mem_cons_of_mem b (ih k (by simpa using h))

lemma getD_range_lt (d : ℕ) : ∀ (n i : ℕ), i < n → (List.range n).getD i d = i := by
  intro n i h
  rw [List.getD_eq_getElem?_getD, List.getElem?_eq_getElem (by simpa using h)]
  simp

lemma take_zip_take {α β : Type} :
    ∀ (n : ℕ) (l₁ : List α) (l₂ : List β),
      (l₁.take n).zip (l₂.take n) = (l₁.zip l₂).take n := by
  intro n
  induction n with
  | zero => intro l₁ l₂; simp
  | succ m ih =>
    intro l₁ l₂
    cases l₁ with
    | nil => simp
    | cons a as =>
      cases l₂ with
      | nil => simp
      | cons b bs =>
        simp only [List.take_succ_cons, List.zip_cons_cons]
        rw [ih as bs]

/-! ### linspace lemmas -/

lemma linspace_length (a b : ℚ) (n : ℕ) : (linspace a b n).length = n := by
  unfold linspace
  split <;> simp

lemma linspace_getD (a b : ℚ) {n i : ℕ} (h2 : 2 ≤ n) (hi : i < n) :
    (linspace a b n).getD i 0 = a + (b - a) * i / ((n : ℚ) - 1) := by
  unfold linspace
  rw [if_neg (by omega)]
  rw [getD_map_lt (fun k : ℕ => a + (b - a) * (k : ℚ) / ((n : ℚ) - 1)) 0 0
      (List.range n) i (by simpa using hi)]
  rw [getD_range_lt 0 n i hi]

lemma linspace_getD_zero (a b : ℚ) {n : ℕ} (h2 : 2 ≤ n) :
    (linspace a b n).getD 0 0 = a := by
  rw [linspace_getD a b h2 (by omega)]
  push_cast
  ring

lemma linspace_getD_last (a b : ℚ) {n : ℕ} (h2 : 2 ≤ n) :
    (linspace a b n).getD (n - 1) 0 = b := by
  rw [linspace_getD a b h2 (by omega)]
  have hne : ((n : ℚ) - 1) ≠ 0 := by
    have : (2 : ℚ) ≤ (n : ℚ) := by exact_mod_cast h2
    intro hc
    nlinarith
  have hcast : ((n - 1 : ℕ) : ℚ) = (n : ℚ) - 1 := by
    have : (1 : ℕ) ≤ n := by omega
    push_cast [this]
    ring
  rw [hcast]
  field_simp

lemma linspace_step (a b : ℚ) {n i : ℕ} (h2 : 2 ≤ n) (hi : i + 1 < n) :
    (linspace a b n).getD (i + 1) 0 - (linspace a b n).getD i 0 =
      (b - a) / ((n : ℚ) - 1) := by
  rw [linspace_getD a b h2 hi, linspace_getD a b h2 (by omega)]
  push_cast
  ring

lemma linspace_mem_left (a b : ℚ) {n : ℕ} (h2 : 2 ≤ n) : a ∈ linspace a b n := by
  have := getD_mem_lt 0 (linspace a b n) 0 (by rw [linspace_length]; omega)
  rwa [linspace_getD_zero a b h2] at this

lemma linspace_mem_right (a b : ℚ) {n : ℕ} (h2 : 2 ≤ n) : b ∈ linspace a b n := by
  have := getD_mem_lt 0 (linspace a b n) (n - 1) (by rw [linspace_length]; omega)
  rwa [linspace_getD_last a b h2] at this

lemma linspace_mem_bound (a b : ℚ) (hab : a ≤ b) (n : ℕ) :
    ∀ q ∈ linspace a b n, a ≤ q ∧ q ≤ b := by
  intro q hq
  unfold linspace at hq
  by_cases hn : n ≤ 1
  · rw [if_pos hn] at hq
    rcases List.mem_map.mp hq with ⟨i, _, rfl⟩
    exact ⟨le_refl a, hab⟩
  · rw [if_neg hn] at hq
    rcases List.mem_map.mp hq with ⟨i, hi, rfl⟩
    have hin : i < n := List.mem_range.mp hi
    have hn1 : (0 : ℚ) < (n : ℚ) - 1 := by
      have h2 : (2 : ℚ) ≤ (n : ℚ) := by exact_mod_cast (by omega : 2 ≤ n)
      linarith
    have hba : (0 : ℚ) ≤ b - a := by linarith
    have hiq : (0 : ℚ) ≤ (i : ℚ) := by positivity
    have hiq2 : (i : ℚ) ≤ (n : ℚ) - 1 := by
      have hstep : (i : ℚ) + 1 ≤ (n : ℚ) := by exact_mod_cast (by omega : i + 1 ≤ n)
      linarith
    constructor
    · have hnn : 0 ≤ (b - a) * i / ((n : ℚ) - 1) :=
        div_nonneg (mul_nonneg hba hiq) (le_of_lt hn1)
      linarith
    · have h1 : (b - a) * i / ((n : ℚ) - 1) ≤ b - a := by
        rw [div_le_iff₀ hn1]
        nlinarith
      linarith

/-! ### Evaluation-loop lemmas -/

lemma rowEval_trace {σ : Type} (xi : ℚ) :
    ∀ (y : List ℚ) (clf : SClassifier σ),
      (rowEval clf xi y).2.1 = y.map (fun yj => [(xi, yj)]) := by
  intro y
  induction y with
  | nil => intro clf; rfl
  | cons yj ys ih =>
    intro clf
    simp only [rowEval, List.map]
    rw [ih]

lemma rowEval_df {σ : Type} (xi : ℚ) :
    ∀ (y : List ℚ) (clf : SClassifier σ),
      ((rowEval clf xi y).2.2).decisionFunction = clf.decisionFunction := by
  intro y
  induction y with
  | nil => intro clf; rfl
  | cons yj ys ih => intro clf; exact ih _

lemma rowEval_sv {σ : Type} (xi : ℚ) :
    ∀ (y : List ℚ) (clf : SClassifier σ),
      ((rowEval clf xi y).2.2).support_vectors = clf.support_vectors := by
  intro y
  induction y with
  | nil => intro clf; rfl
  | cons yj ys ih => intro clf; exact ih _

lemma rowEval_fst {σ : Type} (f : ℚ → ℚ → ℚ) (xi : ℚ) :
    ∀ (y : List ℚ) (clf : SClassifier σ),
      (∀ s p, (clf.decisionFunction s [p]).1 = [f p.1 p.2]) →
      (rowEval clf xi y).1 = y.map (fun yj => f xi yj) := by
  intro y
  induction y with
  | nil => intro clf _; rfl
  | cons yj ys ih =>
    intro clf h
    simp only [rowEval, List.map]
    rw [h clf.state (xi, yj)]
    rw [ih { clf with state := (clf.decisionFunction clf.state [(xi, yj)]).2 } h]
    rfl

lemma rowEval_state_preserve {σ : Type} (xi : ℚ) :
    ∀ (y : List ℚ) (clf : SClassifier σ),
      (∀ s pts, (clf.decisionFunction s pts).2 = s) →
      (rowEval clf xi y).2.2 = clf := by
  intro y
  induction y with
  | nil => intro clf _; rfl
  | cons yj ys ih =>
    intro clf h
    simp only [rowEval]
    have hc : ({ clf with state := (clf.decisionFunction clf.state [(xi, yj)]).2 } :
        SClassifier σ) = clf := by
      rw [h clf.state [(xi, yj)]]
    rw [hc]
    exact ih clf h

lemma gridEval_trace {σ : Type} (y : List ℚ) :
    ∀ (x : List ℚ) (clf : SClassifier σ),
      (gridEval clf x y).2.1 = (x.map (fun xi => y.map (fun yj => [(xi, yj)]))).flatten := by
  intro x
  induction x with
  | nil => intro clf; rfl
  | cons xi xs ih =>
    intro clf
    simp only [gridEval, List.map, List.flatten_cons]
    rw [rowEval_trace, ih]

lemma gridEval_trace_length {σ : Type} (y : List ℚ) :
    ∀ (x : List ℚ) (clf : SClassifier σ),
      (gridEval clf x y).2.1.length = x.length * y.length := by
  intro x
  induction x with
  | nil => intro clf; simp [gridEval]
  | cons xi xs ih =>
    intro clf
    simp only [gridEval, List.length_append, List.length_cons]
    rw [rowEval_trace, ih]
    simp [Nat.succ_mul, Nat.add_comm]

lemma gridEval_calls_singleton {σ : Type} (x y : List ℚ) (clf : SClassifier σ) :
    ∀ c ∈ (gridEval clf x y).2.1, c.length = 1 := by
  intro c hc
  rw [gridEval_trace] at hc
  rcases List.mem_flatten.mp hc with ⟨row, hrow, hcrow⟩
  rcases List.mem_map.mp hrow with ⟨xi, _, rfl⟩
  rcases List.mem_map.mp hcrow with ⟨yj, _, rfl⟩
  rfl

lemma gridEval_fst {σ : Type} (f : ℚ → ℚ → ℚ) (y : List ℚ) :
    ∀ (x : List ℚ) (clf : SClassifier σ),
      (∀ s p, (clf.decisionFunction s [p]).1 = [f p.1 p.2]) →
      (gridEval clf x y).1 = x.map (fun xi => y.map (fun yj => f xi yj)) := by
  intro x
  induction x with
  | nil => intro clf _; rfl
  | cons xi xs ih =>
    intro clf h
    simp only [gridEval, List.map]
    rw [rowEval_fst f xi y clf h]
    rw [ih (rowEval clf xi y).2.2 (by intro s p; rw [rowEval_df]; exact h s p)]

lemma gridEval_state_preserve {σ : Type} (y : List ℚ) :
    ∀ (x : List ℚ) (clf : SClassifier σ),
      (∀ s pts, (clf.decisionFunction s pts).2 = s) →
      (gridEval clf x y).2.2 = clf := by
  intro x
  induction x with
  | nil => intro clf _; rfl
  | cons xi xs ih =>
    intro clf h
    simp only [gridEval]
    rw [rowEval_state_preserve xi y clf h]
    exact ih clf h

/-! ### Run-characterization of the renderer and the driver -/

lemma gca_gca (st : PltState) : st.gca.1.gca = st.gca := by
  by_cases he : st.figs.isEmpty <;> simp [PltState.gca, he, defaultAxes]

lemma readXlim_eq (st : PltState) :
    st.readXlim = (st.gca.1, (currentAxes st).xlim) := rfl

lemma readYlim_eq (st : PltState) :
    st.readYlim = (st.gca.1, (currentAxes st).ylim) := rfl

lemma readXlim_gca (st : PltState) :
    st.gca.1.readXlim = (st.gca.1, (currentAxes st).xlim) := by
  unfold PltState.readXlim currentAxes
  rw [gca_gca]

lemma readYlim_gca (st : PltState) :
    st.gca.1.readYlim = (st.gca.1, (currentAxes st).ylim) := by
  unfold PltState.readYlim currentAxes
  rw [gca_gca]

lemma plot_svc_run {σ : Type} (clf : SClassifier σ) (ax : Option ℕ) (st : PltState) :
    plot_svc_decision_function clf ax st =
      (st.gca.1.addArtistAt (resolveTarget ax st) (rendererContour clf st),
        (gridEval clf (rendererXSamples st) (rendererYSamples st)).2.2) := by
  cases ax with
  | none =>
    unfold plot_svc_decision_function
    simp only [readXlim_gca, readYlim_gca, resolveTarget, rendererContour, rendererP,
      rendererXSamples, rendererYSamples]
  | some i =>
    unfold plot_svc_decision_function
    simp only [readXlim_eq, readYlim_gca, resolveTarget, rendererContour, rendererP,
      rendererXSamples, rendererYSamples]

lemma plot_svm_run {σ : Type} (lib : SKLearn σ) (N : ℕ) (st : PltState) :
    plot_svm lib N st = ⟨st.figs ++ [svmNewAxes lib N], st.figs.length⟩ := by
  unfold plot_svm
  simp only [PltState.figure, PltState.scatter, PltState.setXlim, PltState.setYlim,
    PltState.gca, isEmpty_append_singleton, listModify_append_length,
    getD_append_length, plot_svc_run, resolveTarget, rendererContour, rendererP,
    rendererXSamples, rendererYSamples, currentAxes, PltState.addArtistAt,
    svmNewAxes, svmContour, svmDataScatter, svmClf, svmClfAfter, svmXs, svmYs,
    defaultAxes, List.nil_append, List.cons_append, Bool.false_eq_true, if_false]

/-! ### C1 -/

/-- C1 counterexample: calling `plot_svc_decision_function` with target
surface `axB` (index 1, extents x ∈ [5,6], y ∈ [7,8]) while `axA`
(extents x,y ∈ [0,1]) is the active surface draws onto `axB` a contour
whose evaluation grid is built from the ACTIVE surface's extents
(`plt.xlim()`/`plt.ylim()`), `linspace 0 1 30`: the target's boundary
values 5 and 7 are not among the samples, so the grid does not span the
target surface's extents. -/
theorem plot_svc_target_extents_cex :
    (twoAxState.figs.getD 1 defaultAxes).xlim = (5, 6)
    ∧ (twoAxState.figs.getD 1 defaultAxes).ylim = (7, 8)
    ∧ ((plot_svc_decision_function clf0 (some 1) twoAxState).1.figs.getD 1
        defaultAxes).artists = [rendererContour clf0 twoAxState]
    ∧ rendererXSamples twoAxState = linspace 0 1 30
    ∧ rendererYSamples twoAxState = linspace 0 1 30
    ∧ (5 : ℚ) ∉ rendererXSamples twoAxState
    ∧ (7 : ℚ) ∉ rendererYSamples twoAxState := by
  refine ⟨rfl, rfl, ?_, rfl, rfl, ?_, ?_⟩
  case refine_2 =>
    intro hmem
    have h5 := (linspace_mem_bound 0 1 (by norm_num) 30 5 hmem).2
    norm_num at h5
  case refine_3 =>
    intro hmem
    have h7 := (linspace_mem_bound 0 1 (by norm_num) 30 7 hmem).2
    norm_num at h7
  rw [show (plot_svc_decision_function clf0 (some 1) twoAxState).1
      = twoAxState.gca.1.addArtistAt (resolveTarget (some 1) twoAxState)
          (rendererContour clf0 twoAxState) from by rw [plot_svc_run]]
  show ((listModify
      (fun a0 => { a0 with artists := a0.artists ++ [rendererContour clf0 twoAxState] })
      1 twoAxState.gca.1.figs).getD 1 defaultAxes).artists
    = [rendererContour clf0 twoAxState]
  rw [listModify_getD_self _ defaultAxes 1 twoAxState.gca.1.figs (by decide)]
  rfl

/-- C1 (amended): for every call of `plot_svc_decision_function` whose
target surface is the currently active one (`ax` omitted, or `ax` equal to
`plt.gca()` — as in every call the notebook makes) on a state whose
current axes exists, the evaluation grid consists of exactly 30 evenly
spaced samples per axis, spanning exactly the active (= target) surface's
horizontal extent [x0,x1] and vertical extent [y0,y1] at call time, with
both boundary values among the samples; the call appends to that surface
the contour built from those samples. -/
theorem plot_svc_grid_spec {σ : Type} (clf : SClassifier σ) (ax : Option ℕ)
    (st : PltState) (h : ax = none ∨ ax = some st.gca.2)
    (hv : st.gca.2 < st.gca.1.figs.length) :
    ((plot_svc_decision_function clf ax st).1.figs.getD st.gca.2 defaultAxes).artists
        = (currentAxes st).artists ++ [rendererContour clf st]
    ∧ (rendererXSamples st).length = 30
    ∧ (rendererXSamples st).getD 0 0 = (currentAxes st).xlim.1
    ∧ (rendererXSamples st).getD 29 0 = (currentAxes st).xlim.2
    ∧ (∀ i : ℕ, i + 1 < 30 →
        (rendererXSamples st).getD (i + 1) 0 - (rendererXSamples st).getD i 0
          = ((currentAxes st).xlim.2 - (currentAxes st).xlim.1) / 29)
    ∧ (currentAxes st).xlim.1 ∈ rendererXSamples st
    ∧ (currentAxes st).xlim.2 ∈ rendererXSamples st
    ∧ (rendererYSamples st).length = 30
    ∧ (rendererYSamples st).getD 0 0 = (currentAxes st).ylim.1
    ∧ (rendererYSamples st).getD 29 0 = (currentAxes st).ylim.2
    ∧ (∀ i : ℕ, i + 1 < 30 →
        (rendererYSamples st).getD (i + 1) 0 - (rendererYSamples st).getD i 0
          = ((currentAxes st).ylim.2 - (currentAxes st).ylim.1) / 29)
    ∧ (currentAxes st).ylim.1 ∈ rendererYSamples st
    ∧ (currentAxes st).ylim.2 ∈ rendererYSamples st := by
  have htgt : resolveTarget ax st = st.gca.2 := by
    rcases h with h1 | h1 <;> rw [h1] <;> rfl
  refine ⟨?_, linspace_length _ _ 30,
    linspace_getD_zero _ _ (by norm_num),
    linspace_getD_last _ _ (by norm_num), ?_,
    linspace_mem_left _ _ (by norm_num), linspace_mem_right _ _ (by norm_num),
    linspace_length _ _ 30,
    linspace_getD_zero _ _ (by norm_num),
    linspace_getD_last _ _ (by norm_num), ?_,
    linspace_mem_left _ _ (by norm_num), linspace_mem_right _ _ (by norm_num)⟩
  · rw [show (plot_svc_decision_function clf ax st).1
        = st.gca.1.addArtistAt (resolveTarget ax st) (rendererContour clf st) from by
      rw [plot_svc_run]]
    rw [htgt]
    show ((listModify
        (fun a0 => { a0 with artists := a0.artists ++ [rendererContour clf st] })
        st.gca.2 st.gca.1.figs).getD st.gca.2 defaultAxes).artists
      = (currentAxes st).artists ++ [rendererContour clf st]
    rw [listModify_getD_self _ defaultAxes st.gca.2 st.gca.1.figs hv]
    rfl
  · intro i hi
    unfold rendererXSamples
    rw [linspace_step _ _ (by norm_num) hi]
    norm_num
  · intro i hi
    unfold rendererYSamples
    rw [linspace_step _ _ (by norm_num) hi]
    norm_num

/-- Witness for C1's amended theorem at the concrete call
`plot_svc_decision_function clf0 none plt0`. -/
theorem plot_svc_grid_spec_witness :
    ((plot_svc_decision_function clf0 none plt0).1.figs.getD plt0.gca.2
        defaultAxes).artists
        = (currentAxes plt0).artists ++ [rendererContour clf0 plt0]
    ∧ (rendererXSamples plt0).length = 30
    ∧ (rendererXSamples plt0).getD 0 0 = (currentAxes plt0).xlim.1
    ∧ (rendererXSamples plt0).getD 29 0 = (currentAxes plt0).xlim.2
    ∧ (∀ i : ℕ, i + 1 < 30 →
        (rendererXSamples plt0).getD (i + 1) 0 - (rendererXSamples plt0).getD i 0
          = ((currentAxes plt0).xlim.2 - (currentAxes plt0).xlim.1) / 29)
    ∧ (currentAxes plt0).xlim.1 ∈ rendererXSamples plt0
    ∧ (currentAxes plt0).xlim.2 ∈ rendererXSamples plt0
    ∧ (rendererYSamples plt0).length = 30
    ∧ (rendererYSamples plt0).getD 0 0 = (currentAxes plt0).ylim.1
    ∧ (rendererYSamples plt0).getD 29 0 = (currentAxes plt0).ylim.2
    ∧ (∀ i : ℕ, i + 1 < 30 →
        (rendererYSamples plt0).getD (i + 1) 0 - (rendererYSamples plt0).getD i 0
          = ((currentAxes plt0).ylim.2 - (currentAxes plt0).ylim.1) / 29)
    ∧ (currentAxes plt0).ylim.1 ∈ rendererYSamples plt0
    ∧ (currentAxes plt0).ylim.2 ∈ rendererYSamples plt0 :=
  plot_svc_grid_spec clf0 none plt0 (Or.inl rfl) (by decide)

/-! ### C2 -/

/-- C2: a `plot_svc_decision_function` call evaluates the decision score
once per grid point: the `decision_function` trace has exactly 900
entries, each a single-point batch (no batching), and is the full cross
product of the 30 horizontal and 30 vertical samples in loop order; for a
classifier whose decision score is `f`, the score grid entry `P[i, j]` is
the score at the point whose first coordinate is the i-th horizontal
sample and whose second coordinate is the j-th vertical sample. -/
theorem plot_svc_pointwise_eval {σ : Type} (clf : SClassifier σ) (f : ℚ → ℚ → ℚ)
    (st : PltState) (i j : ℕ)
    (hf : ∀ s p, (clf.decisionFunction s [p]).1 = [f p.1 p.2])
    (hi : i < 30) (hj : j < 30) :
    (plot_svc_decision_function clf none st).1
        = st.gca.1.addArtistAt st.gca.2 (rendererContour clf st)
    ∧ (rendererCalls clf st).length = 900
    ∧ (∀ c ∈ rendererCalls clf st, c.length = 1)
    ∧ rendererCalls clf st
        = ((rendererXSamples st).map (fun xi => (rendererYSamples st).map
            (fun yj => [(xi, yj)]))).flatten
    ∧ ((rendererP clf st).getD i []).getD j 0
        = f ((rendererXSamples st).getD i 0) ((rendererYSamples st).getD j 0) := by
  refine ⟨?_, ?_, ?_, ?_, ?_⟩
  · rw [show (plot_svc_decision_function clf none st).1
        = st.gca.1.addArtistAt (resolveTarget none st) (rendererContour clf st) from by
      rw [plot_svc_run]]
    rfl
  · show (gridEval clf (rendererXSamples st) (rendererYSamples st)).2.1.length = 900
    rw [gridEval_trace_length]
    unfold rendererXSamples rendererYSamples
    rw [linspace_length, linspace_length]
  · exact gridEval_calls_singleton _ _ clf
  · exact gridEval_trace _ _ clf
  · show ((gridEval clf (rendererXSamples st) (rendererYSamples st)).1.getD i []).getD j 0
      = f ((rendererXSamples st).getD i 0) ((rendererYSamples st).getD j 0)
    rw [gridEval_fst f (rendererYSamples st) (rendererXSamples st) clf hf]
    rw [getD_map_lt (fun xi => (rendererYSamples st).map (fun yj => f xi yj)) 0 []
        (rendererXSamples st) i
        (by unfold rendererXSamples; rw [linspace_length]; exact hi)]
    rw [getD_map_lt (fun yj => f ((rendererXSamples st).getD i 0) yj) 0 0
        (rendererYSamples st) j
        (by unfold rendererYSamples; rw [linspace_length]; exact hj)]

/-- Witness for C2 at the concrete call with the zero classifier on the
one-axes state, at grid index (0, 0). -/
theorem plot_svc_pointwise_eval_witness :
    (plot_svc_decision_function clf0 none plt0).1
        = plt0.gca.1.addArtistAt plt0.gca.2 (rendererContour clf0 plt0)
    ∧ (rendererCalls clf0 plt0).length = 900
    ∧ (∀ c ∈ rendererCalls clf0 plt0, c.length = 1)
    ∧ rendererCalls clf0 plt0
        = ((rendererXSamples plt0).map (fun xi => (rendererYSamples plt0).map
            (fun yj => [(xi, yj)]))).flatten
    ∧ ((rendererP clf0 plt0).getD 0 []).getD 0 0
        = fZero ((rendererXSamples plt0).getD 0 0) ((rendererYSamples plt0).getD 0 0) :=
  plot_svc_pointwise_eval clf0 fZero plt0 0 0 (fun _ _ => rfl)
    (by norm_num) (by norm_num)

/-! ### C3 -/

/-- C3: the point set and label sequence `plot_svm N` scatters and fits
are exactly the first `N` rows and first `N` labels of the fixed
200-point dataset — an order-preserving list prefix, not a resampling —
and the labels stay paired with their original points (`take` commutes
with `zip`).  The produced figure's artists are the data scatter of that
prefix, the contour of the classifier fitted on that same prefix
(`svmClf`), and the support-vector overlay. -/
theorem plot_svm_prefix_semantics {σ : Type} (lib : SKLearn σ) (N : ℕ) (st : PltState) :
    ((plot_svm lib N st).figs.getD (plot_svm lib N st).cur defaultAxes).artists
        = [svmDataScatter lib N, svmContour lib N,
            Artist.scatter ((svmClfAfter lib N).support_vectors (svmClfAfter lib N).state)
              ScatterColor.unfilled 200]
    ∧ svmDataScatter lib N
        = Artist.scatter ((plot_svm_dataset lib).1.take N)
            (ScatterColor.byLabel ((plot_svm_dataset lib).2.take N) "spring") 50
    ∧ svmClf lib N
        = lib.svcLinearFit ((plot_svm_dataset lib).1.take N)
            ((plot_svm_dataset lib).2.take N)
    ∧ ((plot_svm_dataset lib).1.take N).zip ((plot_svm_dataset lib).2.take N)
        = ((plot_svm_dataset lib).1.zip (plot_svm_dataset lib).2).take N := by
  refine ⟨?_, rfl, rfl, take_zip_take N _ _⟩
  rw [plot_svm_run]
  show ((st.figs ++ [svmNewAxes lib N]).getD st.figs.length defaultAxes).artists = _
  rw [getD_append_length]
  rfl

/-! ### C4 -/

/-- C4: every `plot_svc_decision_function` call on a valid target axes
draws exactly one new artist — a single contour call with exactly the
three levels -1, 0, 1, linestyles dashed, solid, dashed, partial opacity
alpha = 1/2 (strictly between 0 and 1), in the neutral color "k". -/
theorem plot_svc_contour_styling {σ : Type} (clf : SClassifier σ) (ax : Option ℕ)
    (st : PltState) (hv : resolveTarget ax st < st.gca.1.figs.length) :
    ((plot_svc_decision_function clf ax st).1.figs.getD (resolveTarget ax st)
        defaultAxes).artists
        = (st.gca.1.figs.getD (resolveTarget ax st) defaultAxes).artists
          ++ [Artist.contour (meshgrid (rendererYSamples st) (rendererXSamples st)).2
                (meshgrid (rendererYSamples st) (rendererXSamples st)).1
                (rendererP clf st) "k" [-1, 0, 1] (1/2) ["--", "-", "--"]]
    ∧ [(-1 : ℚ), 0, 1].length = 3
    ∧ (0 : ℚ) < 1/2 ∧ (1/2 : ℚ) < 1 := by
  refine ⟨?_, rfl, by norm_num, by norm_num⟩
  rw [show (plot_svc_decision_function clf ax st).1
      = st.gca.1.addArtistAt (resolveTarget ax st) (rendererContour clf st) from by
    rw [plot_svc_run]]
  show ((listModify
      (fun a0 => { a0 with artists := a0.artists ++ [rendererContour clf st] })
      (resolveTarget ax st) st.gca.1.figs).getD (resolveTarget ax st) defaultAxes).artists
    = _
  rw [listModify_getD_self _ defaultAxes (resolveTarget ax st) st.gca.1.figs hv]
  rfl

/-- Witness for C4 at the concrete call `plot_svc_decision_function clf0
none plt0`. -/
theorem plot_svc_contour_styling_witness :
    ((plot_svc_decision_function clf0 none plt0).1.figs.getD
        (resolveTarget none plt0) defaultAxes).artists
        = (plt0.gca.1.figs.getD (resolveTarget none plt0) defaultAxes).artists
          ++ [Artist.contour (meshgrid (rendererYSamples plt0) (rendererXSamples plt0)).2
                (meshgrid (rendererYSamples plt0) (rendererXSamples plt0)).1
                (rendererP clf0 plt0) "k" [-1, 0, 1] (1/2) ["--", "-", "--"]]
    ∧ [(-1 : ℚ), 0, 1].length = 3
    ∧ (0 : ℚ) < 1/2 ∧ (1/2 : ℚ) < 1 :=
  plot_svc_contour_styling clf0 none plt0 (by decide)

/-! ### C5 -/

/-- C5: for every `N`, `plot_svm N` sets the display extents to the
hard-coded window x ∈ [-1, 4], y ∈ [-1, 6] before invoking the renderer,
so the renderer's evaluation grid spans exactly that window regardless of
`N` and of the prior pyplot state: the produced figure has those extents,
and its contour artist is built from the samples `linspace (-1) 4 30` and
`linspace (-1) 6 30`, whose first and last entries are the window
boundaries. -/
theorem plot_svm_fixed_window {σ : Type} (lib : SKLearn σ) (N : ℕ) (st : PltState) :
    ((plot_svm lib N st).figs.getD (plot_svm lib N st).cur defaultAxes).xlim = (-1, 4)
    ∧ ((plot_svm lib N st).figs.getD (plot_svm lib N st).cur defaultAxes).ylim = (-1, 6)
    ∧ ((plot_svm lib N st).figs.getD (plot_svm lib N st).cur defaultAxes).artists.getD 1
          (Artist.scatter [] ScatterColor.unfilled 0)
        = Artist.contour (meshgrid svmYs svmXs).2 (meshgrid svmYs svmXs).1
            (gridEval (svmClf lib N) svmXs svmYs).1 "k" [-1, 0, 1] (1/2) ["--", "-", "--"]
    ∧ svmXs = linspace (-1) 4 30
    ∧ svmYs = linspace (-1) 6 30
    ∧ svmXs.getD 0 0 = -1 ∧ svmXs.getD 29 0 = 4
    ∧ svmYs.getD 0 0 = -1 ∧ svmYs.getD 29 0 = 6 := by
  have hax : (plot_svm lib N st).figs.getD (plot_svm lib N st).cur defaultAxes
      = svmNewAxes lib N := by
    rw [plot_svm_run]
    show (st.figs ++ [svmNewAxes lib N]).getD st.figs.length defaultAxes = _
    rw [getD_append_length]
  refine ⟨by rw [hax]; rfl, by rw [hax]; rfl, by rw [hax]; rfl, rfl, rfl,
    linspace_getD_zero _ _ (by norm_num), linspace_getD_last _ _ (by norm_num),
    linspace_getD_zero _ _ (by norm_num), linspace_getD_last _ _ (by norm_num)⟩

/-! ### C6 -/

/-- C6: the renderer's score grid is a deterministic function of the
classifier's decision scores and the surface extents alone: two calls of
`plot_svc_decision_function` with classifiers computing the same decision
score `f` and states whose current extents agree produce identical 30×30
score grids and identical contour artists. -/
theorem plot_svc_deterministic_grid {σ₁ σ₂ : Type} (clf₁ : SClassifier σ₁)
    (clf₂ : SClassifier σ₂) (f : ℚ → ℚ → ℚ) (st₁ st₂ : PltState)
    (h₁ : ∀ s p, (clf₁.decisionFunction s [p]).1 = [f p.1 p.2])
    (h₂ : ∀ s p, (clf₂.decisionFunction s [p]).1 = [f p.1 p.2])
    (hx : (currentAxes st₁).xlim = (currentAxes st₂).xlim)
    (hy : (currentAxes st₁).ylim = (currentAxes st₂).ylim) :
    rendererP clf₁ st₁ = rendererP clf₂ st₂
    ∧ rendererContour clf₁ st₁ = rendererContour clf₂ st₂
    ∧ (plot_svc_decision_function clf₁ none st₁).1
        = st₁.gca.1.addArtistAt st₁.gca.2 (rendererContour clf₁ st₁)
    ∧ (plot_svc_decision_function clf₂ none st₂).1
        = st₂.gca.1.addArtistAt st₂.gca.2 (rendererContour clf₂ st₂) := by
  have hxs : rendererXSamples st₁ = rendererXSamples st₂ := by
    unfold rendererXSamples
    rw [hx]
  have hys : rendererYSamples st₁ = rendererYSamples st₂ := by
    unfold rendererYSamples
    rw [hy]
  have hP : rendererP clf₁ st₁ = rendererP clf₂ st₂ := by
    unfold rendererP
    rw [gridEval_fst f (rendererYSamples st₁) (rendererXSamples st₁) clf₁ h₁,
      gridEval_fst f (rendererYSamples st₂) (rendererXSamples st₂) clf₂ h₂, hxs, hys]
  refine ⟨hP, ?_, ?_, ?_⟩
  · unfold rendererContour
    rw [hxs, hys, hP]
  · rw [show (plot_svc_decision_function clf₁ none st₁).1
        = st₁.gca.1.addArtistAt (resolveTarget none st₁) (rendererContour clf₁ st₁) from by
      rw [plot_svc_run]]
    rfl
  · rw [show (plot_svc_decision_function clf₂ none st₂).1
        = st₂.gca.1.addArtistAt (resolveTarget none st₂) (rendererContour clf₂ st₂) from by
      rw [plot_svc_run]]
    rfl

/-- Witness for C6 at two identical concrete calls with the zero
classifier on the one-axes state. -/
theorem plot_svc_deterministic_grid_witness :
    rendererP clf0 plt0 = rendererP clf0 plt0
    ∧ rendererContour clf0 plt0 = rendererContour clf0 plt0
    ∧ (plot_svc_decision_function clf0 none plt0).1
        = plt0.gca.1.addArtistAt plt0.gca.2 (rendererContour clf0 plt0)
    ∧ (plot_svc_decision_function clf0 none plt0).1
        = plt0.gca.1.addArtistAt plt0.gca.2 (rendererContour clf0 plt0) :=
  plot_svc_deterministic_grid clf0 clf0 fZero plt0 plt0
    (fun _ _ => rfl) (fun _ _ => rfl) rfl rfl

/-! ### C7 -/

/-- C7: for a classifier whose decision score is the known linear function
f(x, y) = a·x + b·y + c, every entry of the renderer's score grid is that
linear function evaluated at the corresponding samples — P[i, j] =
a·x_i + b·y_j + c — so the level sets of P at the drawn contour levels
-1, 0, +1 are exactly the lines a·x + b·y + c = -1, 0, +1 within the
sampled grid resolution; the call draws the contour of this grid at those
three levels. -/
theorem plot_svc_linear_decision {σ : Type} (clf : SClassifier σ) (a b c : ℚ)
    (st : PltState) (i j : ℕ)
    (hf : ∀ s p, (clf.decisionFunction s [p]).1 = [a * p.1 + b * p.2 + c])
    (hi : i < 30) (hj : j < 30) :
    ((rendererP clf st).getD i []).getD j 0
        = a * (rendererXSamples st).getD i 0 + b * (rendererYSamples st).getD j 0 + c
    ∧ (plot_svc_decision_function clf none st).1
        = st.gca.1.addArtistAt st.gca.2
            (Artist.contour (meshgrid (rendererYSamples st) (rendererXSamples st)).2
              (meshgrid (rendererYSamples st) (rendererXSamples st)).1
              (rendererP clf st) "k" [-1, 0, 1] (1/2) ["--", "-", "--"]) := by
  constructor
  · show ((gridEval clf (rendererXSamples st) (rendererYSamples st)).1.getD i []).getD j 0
      = a * (rendererXSamples st).getD i 0 + b * (rendererYSamples st).getD j 0 + c
    rw [gridEval_fst (fun u v => a * u + b * v + c) (rendererYSamples st)
        (rendererXSamples st) clf hf]
    rw [getD_map_lt (fun xi => (rendererYSamples st).map (fun yj => a * xi + b * yj + c))
        0 [] (rendererXSamples st) i
        (by unfold rendererXSamples; rw [linspace_length]; exact hi)]
    rw [getD_map_lt (fun yj => a * (rendererXSamples st).getD i 0 + b * yj + c) 0 0
        (rendererYSamples st) j
        (by unfold rendererYSamples; rw [linspace_length]; exact hj)]
  · rw [show (plot_svc_decision_function clf none st).1
        = st.gca.1.addArtistAt (resolveTarget none st) (rendererContour clf st) from by
      rw [plot_svc_run]]
    rfl

/-- Witness for C7 at the concrete linear classifier `clfLin` with
a = b = 1, c = 0, on the one-axes state, at grid index (0, 0). -/
theorem plot_svc_linear_decision_witness :
    ((rendererP clfLin plt0).getD 0 []).getD 0 0
        = 1 * (rendererXSamples plt0).getD 0 0 + 1 * (rendererYSamples plt0).getD 0 0 + 0
    ∧ (plot_svc_decision_function clfLin none plt0).1
        = plt0.gca.1.addArtistAt plt0.gca.2
            (Artist.contour (meshgrid (rendererYSamples plt0) (rendererXSamples plt0)).2
              (meshgrid (rendererYSamples plt0) (rendererXSamples plt0)).1
              (rendererP clfLin plt0) "k" [-1, 0, 1] (1/2) ["--", "-", "--"]) :=
  plot_svc_linear_decision clfLin 1 1 0 plt0 0 0 (fun _ _ => rfl)
    (by norm_num) (by norm_num)

/-! ### C8 -/

/-- C8: `plot_svm`'s sample-count parameter defaults to 10 (the cell's
bare call runs `plot_svm` at the default), and for every `N` the driver
draws from the dataset `make_blobs` with the fixed literal arguments
n_samples = 200, centers = 2, random_state = 0, cluster_std = 0.60 — the
same pure application for every `N` and every prior state, so the
underlying 200-point dataset is identical across all calls: the figure
produced by any call scatters a prefix of that one dataset. -/
theorem plot_svm_default_and_fixed_dataset :
    plot_svm_N_default = 10
    ∧ (∀ (σ : Type) (lib : SKLearn σ),
        plot_svm_dataset lib = lib.make_blobs 200 2 0 (3/5))
    ∧ (∀ (σ : Type) (lib : SKLearn σ) (N : ℕ) (st : PltState),
        ((plot_svm lib N st).figs.getD (plot_svm lib N st).cur defaultAxes).artists.headI
          = Artist.scatter ((plot_svm_dataset lib).1.take N)
              (ScatterColor.byLabel ((plot_svm_dataset lib).2.take N) "spring") 50)
    ∧ (∀ (σ : Type) (lib : SKLearn σ) (st : PltState),
        cell17 lib st = plot_svm lib 200 (plot_svm lib 10 st)) := by
  refine ⟨rfl, fun σ lib => rfl, ?_, fun σ lib st => rfl⟩
  intro σ lib N st
  rw [plot_svm_run]
  show ((st.figs ++ [svmNewAxes lib N]).getD st.figs.length defaultAxes).artists.headI = _
  rw [getD_append_length]
  rfl

/-! ### C9 -/

/-- C9: `plot_svc_decision_function` never mutates the classifier object
passed to it.  The renderer's only interaction with the object is calling
`decision_function`; under the hypothesis that `decision_function` is a
read (returns the object state unchanged — the behaviour of a fitted
sklearn SVC), the classifier after the call is exactly the classifier
before it: same state, same decision-score function, same support
vectors. -/
theorem plot_svc_no_mutation {σ : Type} (clf : SClassifier σ) (ax : Option ℕ)
    (st : PltState) (h : ∀ s pts, (clf.decisionFunction s pts).2 = s) :
    (plot_svc_decision_function clf ax st).2 = clf := by
  rw [plot_svc_run]
  exact gridEval_state_preserve (rendererYSamples st) (rendererXSamples st) clf h

/-- Witness for C9 at the concrete call `plot_svc_decision_function clf0
none plt0`: the pure classifier is returned unchanged. -/
theorem plot_svc_no_mutation_witness :
    (plot_svc_decision_function clf0 none plt0).2 = clf0 :=
  plot_svc_no_mutation clf0 none plt0 (fun _ _ => rfl)

/-! ### C10 -/

/-- C10: every `plot_svm` call creates a fresh drawing surface before
plotting: the output has exactly one more axes than the input, all prior
axes are untouched, the current axes is the fresh one, and the fresh
axes' full contents (extents, grid, artists) are the same whatever the
prior pyplot state was. -/
theorem plot_svm_fresh_surface {σ : Type} (lib : SKLearn σ) (N : ℕ)
    (st₁ st₂ : PltState) :
    (plot_svm lib N st₁).figs.length = st₁.figs.length + 1
    ∧ (plot_svm lib N st₁).figs.take st₁.figs.length = st₁.figs
    ∧ (plot_svm lib N st₁).cur = st₁.figs.length
    ∧ (plot_svm lib N st₁).figs.getD st₁.figs.length defaultAxes
        = (plot_svm lib N st₂).figs.getD st₂.figs.length defaultAxes := by
  rw [plot_svm_run lib N st₁, plot_svm_run lib N st₂]
  refine ⟨by simp, ?_, rfl, ?_⟩
  · show (st₁.figs ++ [svmNewAxes lib N]).take st₁.figs.length = st₁.figs
    simp
  · show (st₁.figs ++ [svmNewAxes lib N]).getD st₁.figs.length defaultAxes
      = (st₂.figs ++ [svmNewAxes lib N]).getD st₂.figs.length defaultAxes
    rw [getD_append_length, getD_append_length]
